import Mathlib

/-!  Verification of the `jutopia_data` repository's specification.

Shallow embedding of the Python sources in Lean 4.  Python floats are
modelled as rationals (`ℚ`), Python ints as `ℤ`/`ℕ`, JSON dictionaries as
association lists, and raised exceptions as the `Except.error` branch of
an `Except` result.  External effects (HTTP responses, `time.sleep`,
file contents) are passed in explicitly as parameters, and each loop also
reports the sleeps it performed and the number of attempts it made, so
the retry schedule can be reasoned about. -/

namespace HantuStock

/-! ### `HantuStock._get_access_token` (src/HantuStock.py lines 80-102)

Each loop iteration does one `requests.post`; the outcome is either a
raised exception, a JSON body containing `"access_token"`, or a JSON body
without it.  The outcome of attempt `i` is supplied as `o i`. -/

/-- Outcome of one HTTP attempt inside `_get_access_token`. -/
inductive TokenOutcome where
  | exn : TokenOutcome
  | token : String → TokenOutcome
  | noToken : TokenOutcome
deriving DecidableEq

/-- Result of running a retry loop: the returned value (or the exception
that propagates, as `Except.error`), the list of `time.sleep` durations
performed, and the number of attempts made.  Durations are in tenths of
a second (`5` = 0.5 s), an exact integer rescaling of the source's float
seconds. -/
structure TokenRun where
  result : Except String String
  sleeps : List ℕ
  attempts : ℕ

/-- The `for attempt in range(6)` loop of `_get_access_token`:
on success return the token; otherwise sleep `backoff` and double it,
capped at 5.0; after the budget is exhausted raise `RuntimeError`. -/
def tokenLoop (o : ℕ → TokenOutcome) : ℕ → ℕ → ℕ → TokenRun
  | 0, _, _ => ⟨.error "Failed to get access token after retries", [], 0⟩
  | fuel + 1, i, backoff =>
    match o i with
    | .token t => ⟨.ok t, [], 1⟩
    | _ =>
      let r := tokenLoop o fuel (i + 1) (min (backoff * 2) 50)
      ⟨r.result, backoff :: r.sleeps, r.attempts + 1⟩

/-- `HantuStock._get_access_token`, as a function of the attempt outcomes.
`backoff = 0.5` seconds is the integer `5` (tenths of a second). -/
def getAccessToken (o : ℕ → TokenOutcome) : TokenRun :=
  tokenLoop o 6 0 5

/-! ### `HantuStock._request` (src/HantuStock.py lines 114-139) -/

/-- The fields of the response JSON that `_request` inspects, plus an
abstract identifier `body` standing for the rest of the dictionary. -/
structure KisData where
  rt_cd : Option String
  msg_cd : Option String
  msg1 : Option String
  body : ℕ
deriving DecidableEq

/-- Response headers, as an association list. -/
abbrev Headers := List (String × String)

/-- Outcome of one HTTP attempt inside `_request`: either `requests`
raised (connect timeout, read timeout, or any other exception), or a
response with headers and a JSON body was obtained. -/
inductive ReqOutcome where
  | exn : ReqOutcome
  | resp : Headers → KisData → ReqOutcome
deriving DecidableEq

/-- The generic failure payload `{"rt_cd": "1", "msg1": "request failed
after retries"}` returned when the budget is exhausted. -/
def failData : KisData :=
  { rt_cd := some "1", msg_cd := none, msg1 := some "request failed after retries", body := 0 }

/-- `data.get("rt_cd") != "0" and data.get("msg_cd") in {"EGW00201", "EGW00123"}`:
the throttling condition under which `_request` backs off and retries. -/
def isThrottle (d : KisData) : Bool :=
  d.rt_cd ≠ some "0" ∧ (d.msg_cd = some "EGW00201" ∨ d.msg_cd = some "EGW00123")

structure ReqRun where
  result : Except String (Headers × KisData)
  sleeps : List ℕ
  attempts : ℕ

/-- The `for attempt in range(6)` loop of `_request`: a response is
returned at once unless it is a throttling response; throttling responses
and exceptions sleep `backoff`, double it capped at 5.0, and retry;
exhausting the budget returns `({}, failData)`. -/
def requestLoop (o : ℕ → ReqOutcome) : ℕ → ℕ → ℕ → ReqRun
  | 0, _, _ => ⟨.ok ([], failData), [], 0⟩
  | fuel + 1, i, backoff =>
    match o i with
    | .exn =>
      let r := requestLoop o fuel (i + 1) (min (backoff * 2) 50)
      ⟨r.result, backoff :: r.sleeps, r.attempts + 1⟩
    | .resp hd d =>
      if isThrottle d then
        let r := requestLoop o fuel (i + 1) (min (backoff * 2) 50)
        ⟨r.result, backoff :: r.sleeps, r.attempts + 1⟩
      else ⟨.ok (hd, d), [], 1⟩

/-- `HantuStock._request`, as a function of the attempt outcomes. -/
def request (o : ℕ → ReqOutcome) : ReqRun :=
  requestLoop o 6 0 5

/-- An attempt outcome that makes `_request` retry: an exception or a
throttling response. -/
def retryable : ReqOutcome → Prop
  | .exn => True
  | .resp _ d => isThrottle d = true

instance : DecidablePred retryable := by
  intro x; cases x <;> simp [retryable] <;> infer_instance

/-- The full sleep schedule on six consecutive failures, in tenths of a
second: 0.5 s, then doubling capped at 5.0 s. -/
def backoffSeq : List ℕ := [5, 10, 20, 40, 50, 50]

/-- The sleep schedule generated by `n` consecutive failures starting
from backoff `b`. -/
def genSeq : ℕ → ℕ → List ℕ
  | 0, _ => []
  | n + 1, b => b :: genSeq n (min (b * 2) 50)

/-! ### `HantuStock._inquire_balance_raw` (src/HantuStock.py lines 179-208)

One loop iteration sends one balance request through `_request` and gets
back response headers `hd` and a JSON body `res`.  A `Page` packages the
parts the loop reads: `hd.get("tr_cont")`, `res.get("ctx_area_fk100",
"")`, `res.get("ctx_area_nk100", "")` and `res.get("output1", [])` (rows
of type `α`).  The successive pages the server produces are supplied as
a list; when the list is exhausted, further requests behave like
`_request`'s own budget-exhaustion result `({}, {"rt_cd": "1", ...})`,
whose page view is `failPage` (no `tr_cont` header, empty continuation
strings, no rows) — so the loop then stops. -/

/-- The parts of one `_request` reply that `_inquire_balance_raw` reads. -/
structure Page (α : Type) where
  tr_cont : Option String
  fk100 : String
  nk100 : String
  output1 : List α
deriving DecidableEq

/-- Page view of `({}, {"rt_cd": "1", "msg1": "request failed after
retries"})`: every `get` falls back to its default. -/
def failPage {α : Type} : Page α := ⟨none, "", "", []⟩

/-- `hd.get("tr_cont") in {"F", "M"}`: the loop keeps going. -/
def contFlag {α : Type} (p : Page α) : Bool :=
  p.tr_cont = some "F" ∨ p.tr_cont = some "M"

/-- What one run of the pagination loop produces: the accumulated
`output1` rows `out`, and the `(CTX_AREA_FK100, CTX_AREA_NK100)`
parameter pair of every request issued, in order. -/
structure BalanceRun (α : Type) where
  out : List α
  reqs : List (String × String)
deriving DecidableEq

/-- The `while cont` loop of `_inquire_balance_raw` (`account_info` is
false): issue a request carrying `(fk, nk)`, append the page's rows,
and continue with the page's continuation values while `tr_cont` is
`"F"` or `"M"`. -/
def balanceLoop {α : Type} : List (Page α) → String → String → BalanceRun α
  | [], fk, nk =>
    -- the next request gets `failPage`: no rows, and the loop stops
    ⟨failPage (α := α) |>.output1, [(fk, nk)]⟩
  | p :: ps, fk, nk =>
    if contFlag p then
      let r := balanceLoop ps p.fk100 p.nk100
      ⟨p.output1 ++ r.out, (fk, nk) :: r.reqs⟩
    else ⟨p.output1, [(fk, nk)]⟩

/-- `HantuStock._inquire_balance_raw(account_info=False)`: the loop
starts with empty continuation strings. -/
def inquireBalanceRaw {α : Type} (pages : List (Page α)) : BalanceRun α :=
  balanceLoop pages "" ""

/-- The pages the loop actually consumes: every page through the first
one whose `tr_cont` is not a continuation marker. -/
def visitedPages {α : Type} : List (Page α) → List (Page α)
  | [] => []
  | p :: ps => p :: (if contFlag p then visitedPages ps else [])

/-- The consumed pages that carried a continuation marker (each of these
causes one more request, fed with its `ctx_area` values). -/
def contPages {α : Type} : List (Page α) → List (Page α)
  | [] => []
  | p :: ps => if contFlag p then p :: contPages ps else []

/-! ### `HantuStock.get_holding_cash` (src/HantuStock.py lines 264-269)

`info = self._inquire_balance_raw(account_info=True)` is the first
balance response's `res.get("output2", [{}])[0]`, a JSON dictionary of
string fields, modelled as an association list.  The external
`float(...)` conversion is passed in as `pyFloat`, with `none` modelling
a raised `ValueError`. -/

/-- A JSON dictionary whose values are strings. -/
abbrev Payload := List (String × String)

/-- `get_holding_cash`: `try: return float(info.get("prvs_rcdl_excc_amt", 0))
except: return 0.0`.  When the key is absent, `float` is applied to the
int default `0`, which cannot raise and gives `0.0`. -/
def getHoldingCash (pyFloat : String → Option ℚ) (info : Payload) : ℚ :=
  match info.lookup "prvs_rcdl_excc_amt" with
  | none => 0
  | some s => (pyFloat s).getD 0

end HantuStock

namespace StockAnalyzer

/-! ### `StockAnalyzer.load_cash_balance` (src/stock_analyzer.py lines 56-72)

The data directory is modelled as the list of its file names and
`pd.read_csv` as a function from a file name to the row it yields
(`none` models a raised pandas exception, which `load_cash_balance`
does not catch). -/

/-- Does the second character list start with the first? -/
def leadMatch : List Char → List Char → Bool
  | [], _ => true
  | _ :: _, [] => false
  | c :: cs, d :: ds => c == d && leadMatch cs ds

/-- `fnmatch`-matching of a file name against the glob `"cash_*.csv"`:
the name starts with `cash_`, ends with `.csv`, and the `*` matches the
(possibly empty) characters in between. -/
def matchesCashPattern (name : String) : Bool :=
  leadMatch "cash_".data name.data
    && leadMatch ".csv".data.reverse name.data.reverse
    && decide (9 ≤ name.data.length)

/-- Insertion into a lexicographically sorted list of names. -/
def insertSorted (s : String) : List String → List String
  | [] => [s]
  | t :: ts => if s ≤ t then s :: t :: ts else t :: insertSorted s ts

/-- `sorted(...)` on file names. -/
def sortStrings : List String → List String
  | [] => []
  | s :: ss => insertSorted s (sortStrings ss)

/-- `StockAnalyzer._get_latest_file`: the last element of the sorted
list of matching names, if any. -/
def getLatestFile (pat : String → Bool) (dir : List String) : Option String :=
  (sortStrings (dir.filter pat)).getLast?

/-- The two columns of a `cash_*.csv` file that the loader reads
(first row of `asof` and `cash`). -/
structure CashRow where
  asof : String
  cash : ℚ

/-- A JSON-ish dictionary value: a string or a number. -/
inductive CVal where
  | s : String → CVal
  | q : ℚ → CVal

/-- `StockAnalyzer.load_cash_balance`: no matching file yields the
`{"error": ...}` dictionary; otherwise the latest matching file is read
and `{"asof": ..., "cash": ..., "file": ...}` is returned (a failing
read propagates as the pandas exception). -/
def loadCashBalance (dir : List String) (read : String → Option CashRow) :
    Except String (List (String × CVal)) :=
  match getLatestFile matchesCashPattern dir with
  | none => .ok [("error", .s "현금 잔고 파일을 찾을 수 없습니다")]
  | some f =>
    match read f with
    | none => .error "pd.read_csv raised"
    | some row => .ok [("asof", .s row.asof), ("cash", .q row.cash), ("file", .s f)]

end StockAnalyzer

/-! ### Kakao response JSON (src/kakao_report_formatter.py, src/news_summary.py) -/

/-- A JSON value: a string leaf, an array, or an object whose fields are
an ordered association list. -/
inductive J where
  | s : String → J
  | arr : List J → J
  | obj : List (String × J) → J

/-- Field access on a JSON object. -/
def jLookup (k : String) : J → Option J
  | .obj kvs => kvs.lookup k
  | _ => none

namespace Py

/-- Digit grouping for Python's `,` format option: insert `,` after
every third character of the reversed digit string. -/
def commaChunks : List Char → List Char
  | a :: b :: c :: d :: rest => a :: b :: c :: ',' :: commaChunks (d :: rest)
  | l => l

/-- `f"{n:,}"` on a non-negative integer. -/
def pyCommaNat (n : ℕ) : String :=
  ⟨(commaChunks (Nat.repr n).data.reverse).reverse⟩

/-- `f"{z:,}"` on a Python int. -/
def pyComma (z : ℤ) : String :=
  if z < 0 then "-" ++ pyCommaNat z.natAbs else pyCommaNat z.natAbs

/-- `f"{z:+,}"` on a Python int (sign always shown). -/
def pySignComma (z : ℤ) : String :=
  if z < 0 then "-" ++ pyCommaNat z.natAbs else "+" ++ pyCommaNat z.natAbs

/-- Round to the nearest integer, ties to even (Python's `round` and
float formatting; exact halves of the binary float are modelled as exact
halves of the rational). -/
def halfEven (q : ℚ) : ℤ :=
  if q - ⌊q⌋ = 1 / 2 then (if 2 ∣ ⌊q⌋ then ⌊q⌋ else ⌊q⌋ + 1) else round q

/-- `round(q, 2)`. -/
def pyround2 (q : ℚ) : ℚ := halfEven (q * 100) / 100

/-- Python `int(...)` on a float: truncation toward zero. -/
def pytrunc (q : ℚ) : ℤ := if 0 ≤ q then ⌊q⌋ else ⌈q⌉

/-- Two decimal digits, zero-padded. -/
def twoDigits (m : ℕ) : String :=
  if m < 10 then "0" ++ Nat.repr m else Nat.repr m

/-- `f"{q:+.2f}"`: sign always shown, two decimals, ties to even.
(The float `-0.0` has no rational counterpart; a zero result is
rendered with `+`.) -/
def pySignTwoDec (q : ℚ) : String :=
  let r := halfEven (q * 100)
  (if r < 0 then "-" else "+") ++ Nat.repr (r.natAbs / 100) ++ "." ++ twoDigits (r.natAbs % 100)

end Py

namespace KakaoReportFormatter

/-- `summary['basic_info']` as built by `_create_summary_from_detail`.
`current_price` and `price_change` are formatted with `:,`/`:+,`, so the
numeric case is modelled (`'N/A'` would make the f-string raise). -/
structure BasicInfo where
  ticker : String
  company_name : String
  current_price : ℤ
  price_change : ℤ
  price_change_pct : ℚ

/-- `summary['key_metrics']`. -/
structure KeyMetrics where
  per : String
  pbr : String
  roe : String

/-- `summary['investment_opinion']` as built by `_extract_opinion`. -/
structure Opinion where
  opinion : String
  target_price : String
  risk_level : String

/-- The `summary` argument of `_create_kakao_response`. -/
structure Summary where
  basic_info : BasicInfo
  key_metrics : KeyMetrics
  investment_opinion : Opinion
  brief_summary : String

/-- `KakaoReportFormatter._create_kakao_response` (lines 152-226):
the Kakao skill-server response built from the summary data. -/
def kakaoResponse (summary : Summary) (detail_url : String) : J :=
  let basic := summary.basic_info
  let metrics := summary.key_metrics
  let opinion := summary.investment_opinion
  let price_change_emoji : String :=
    if basic.price_change > 0 then "📈" else if basic.price_change < 0 then "📉" else "➡️"
  let price_change_text :=
    price_change_emoji ++ " " ++ Py.pySignComma basic.price_change ++ "원 ("
      ++ Py.pySignTwoDec basic.price_change_pct ++ "%)"
  let opinion_emoji : String :=
    if opinion.opinion = "매수" then "🟢"
    else if opinion.opinion = "보유" then "🟡"
    else if opinion.opinion = "매도" then "🔴"
    else if opinion.opinion = "관망" then "⚪"
    else "⚪"
  .obj [
    ("version", .s "2.0"),
    ("template", .obj [
      ("outputs", .arr [
        .obj [("basicCard", .obj [
          ("title", .s ("📊 " ++ basic.company_name ++ " (" ++ basic.ticker ++ ")")),
          ("description", .s summary.brief_summary),
          ("thumbnail", .obj [
            ("imageUrl", .s ("https://example.com/chart/" ++ basic.ticker ++ ".png"))]),
          ("buttons", .arr [.obj [
            ("action", .s "webLink"),
            ("label", .s "📄 상세 리포트 보기"),
            ("webLinkUrl", .s detail_url)]])])],
        .obj [("listCard", .obj [
          ("header", .obj [("title", .s "📈 핵심 정보")]),
          ("items", .arr [
            .obj [("title", .s "현재가"),
              ("description", .s (Py.pyComma basic.current_price ++ "원\n" ++ price_change_text))],
            .obj [("title", .s "밸류에이션"),
              ("description", .s ("PER " ++ metrics.per ++ "배 | PBR " ++ metrics.pbr
                ++ "배 | ROE " ++ metrics.roe ++ "%"))],
            .obj [("title", .s "투자 의견"),
              ("description", .s (opinion_emoji ++ " " ++ opinion.opinion
                ++ "\n목표주가: " ++ opinion.target_price))]]),
          ("buttons", .arr [.obj [
            ("action", .s "webLink"),
            ("label", .s "📄 상세 리포트 보기"),
            ("webLinkUrl", .s detail_url)]])])]])])]

/-- A concrete summary used to evaluate `kakaoResponse`. -/
def sampleSummary : Summary :=
  { basic_info :=
      { ticker := "005930"
        company_name := "삼성전자"
        current_price := 70000
        price_change := 1000
        price_change_pct := 145 / 100 }
    key_metrics := { per := "12.5", pbr := "1.2", roe := "9.8" }
    investment_opinion :=
      { opinion := "매수"
        target_price := "115,000원"
        risk_level := "중간" }
    brief_summary := "반도체 업황 회복 기대." }

end KakaoReportFormatter

namespace NewsSummary

/-- `result['metadata']`, as read by `NewsSummaryGenerator.format_for_kakao`. -/
structure NewsMeta where
  company_name : String
  ticker : String

/-- The error branch of `NewsSummaryGenerator.format_for_kakao`
(news_summary.py lines 230-240): no `quickReplies` at all. -/
def formatForKakaoError (errorMsg : String) : J :=
  .obj [
    ("version", .s "2.0"),
    ("template", .obj [
      ("outputs", .arr [.obj [("simpleText", .obj [
        ("text", .s ("❌ " ++ errorMsg))])]])])]

/-- The main branch of `NewsSummaryGenerator.format_for_kakao`
(news_summary.py lines 242-284): `key_issues` is
`sections.get('key_issues', '요약 정보 없음')`, truncated to 197
characters plus `"..."` when longer than 200; `quickReplies` is placed
inside the `template` object, next to `outputs`. -/
def formatForKakao (meta : NewsMeta) (key_issues_sec : Option String) : J :=
  let key_issues0 := key_issues_sec.getD "요약 정보 없음"
  let key_issues :=
    if key_issues0.length > 200 then key_issues0.take 197 ++ "..." else key_issues0
  .obj [
    ("version", .s "2.0"),
    ("template", .obj [
      ("outputs", .arr [.obj [("textCard", .obj [
        ("title", .s ("📰 " ++ meta.company_name ++ " 뉴스 요약")),
        ("description", .s key_issues),
        ("buttons", .arr [.obj [
          ("action", .s "webLink"),
          ("label", .s "📄 상세 보기"),
          ("webLinkUrl", .s ("https://example.com/news/" ++ meta.ticker))]])])]]),
      ("quickReplies", .arr [
        .obj [("action", .s "message"), ("label", .s "📊 종목 리포트"),
          ("messageText", .s (meta.company_name ++ " 리포트"))],
        .obj [("action", .s "message"), ("label", .s "📈 차트 보기"),
          ("messageText", .s (meta.company_name ++ " 차트"))]])])]

end NewsSummary

namespace AveragingCalculator

/-! ### `AveragingCalculator.calculate` (src/averaging_calculator.py lines 15-75) -/

/-- The dictionary returned by `calculate`.  `int(...)` fields are
truncated floats, `round(..., 2)` fields are rounded rationals. -/
structure CalcResult where
  new_avg : ℤ
  change : ℤ
  change_pct : ℚ
  total_qty : ℤ
  total_cost : ℤ
  breakeven_price : ℤ
  profit_if_sell_now : ℤ
  profit_pct : ℚ
deriving DecidableEq

/-- `AveragingCalculator.calculate`: averaging-down simulation.  Floats
are modelled as rationals; `int(new_avg)` etc. truncate toward zero. -/
def calculate (avg_price : ℚ) (quantity : ℤ) (current_price : ℚ) (add_quantity : ℤ) :
    CalcResult :=
  let existing_cost := avg_price * (quantity : ℚ)
  let additional_cost := current_price * (add_quantity : ℚ)
  let total_cost := existing_cost + additional_cost
  let total_qty := quantity + add_quantity
  let new_avg : ℚ := if total_qty > 0 then total_cost / (total_qty : ℚ) else 0
  let change := new_avg - avg_price
  let change_pct : ℚ := if avg_price > 0 then change / avg_price * 100 else 0
  let current_value := current_price * (total_qty : ℚ)
  let profit_if_sell_now := current_value - total_cost
  let profit_pct : ℚ := if total_cost > 0 then profit_if_sell_now / total_cost * 100 else 0
  { new_avg := Py.pytrunc new_avg
    change := Py.pytrunc change
    change_pct := Py.pyround2 change_pct
    total_qty := total_qty
    total_cost := Py.pytrunc total_cost
    breakeven_price := Py.pytrunc new_avg
    profit_if_sell_now := Py.pytrunc profit_if_sell_now
    profit_pct := Py.pyround2 profit_pct }

end AveragingCalculator

namespace HantuStock

/-! ### `HantuStock._tr` (src/HantuStock.py lines 70-78) and
`HantuStock.get_transaction_summary` (lines 449-526) -/

/-- The keys of the `codes` dictionary in `_tr`. -/
inductive TrKey where
  | inquireBalance : TrKey
  | orderBuy : TrKey
  | orderSell : TrKey
  | inquireDailyCcld : TrKey
deriving DecidableEq

/-- The `codes` dictionary of `_tr`. -/
def trCode : TrKey → String
  | .inquireBalance => "8434R"
  | .orderBuy => "0012U"
  | .orderSell => "0011U"
  | .inquireDailyCcld => "0081R"

/-- `HantuStock._tr`: `"TTTC"` in the production environment, `"VTTC"`
in the paper-trading one, plus the TR code. -/
def tr (isProd : Bool) (k : TrKey) : String :=
  (if isProd then "TTTC" else "VTTC") ++ trCode k

/-- One cleaned transaction row, as produced by
`get_transaction_history` (only executed orders are kept). -/
structure Txn where
  ord_dt : String
  pdno : String
  prdt_name : String
  sll_buy_dvsn_cd : String
  sll_buy_dvsn_cd_name : String
  ord_qty : ℤ
  tot_ccld_qty : ℤ
  avg_prvs : ℚ
  tot_ccld_amt : ℚ

/-- `t["sll_buy_dvsn_cd"] == "02"`: the transaction is a buy. -/
def isBuy (t : Txn) : Bool := t.sll_buy_dvsn_cd = "02"

/-- The per-stock accumulator of `get_transaction_summary`. -/
structure StockAgg where
  prdt_name : String
  buy_amount : ℚ
  sell_amount : ℚ
  buy_qty : ℤ
  sell_qty : ℤ
  trades : ℕ

/-- The fresh entry inserted when a ticker is first seen. -/
def initAgg (name : String) : StockAgg := ⟨name, 0, 0, 0, 0, 0⟩

/-- One loop body's per-stock update: bump `trades`, then add the
executed amount and quantity to the buy or sell side. -/
def bumpAgg (t : Txn) (a : StockAgg) : StockAgg :=
  let a := { a with trades := a.trades + 1 }
  if isBuy t then
    { a with buy_amount := a.buy_amount + t.tot_ccld_amt
             buy_qty := a.buy_qty + t.tot_ccld_qty }
  else
    { a with sell_amount := a.sell_amount + t.tot_ccld_amt
             sell_qty := a.sell_qty + t.tot_ccld_qty }

/-- Update the (ordered) dictionary at a present key. -/
def updAssoc (k : String) (f : StockAgg → StockAgg) :
    List (String × StockAgg) → List (String × StockAgg)
  | [] => []
  | (k', v) :: rest =>
    if k' = k then (k', f v) :: rest else (k', v) :: updAssoc k f rest

/-- The running state of `get_transaction_summary`'s loop:
`total_buy`, `total_sell`, `buy_count`, `sell_count`, `by_stock`. -/
structure SummaryState where
  total_buy : ℚ
  total_sell : ℚ
  buy_count : ℕ
  sell_count : ℕ
  by_stock : List (String × StockAgg)

/-- One iteration of the `for t in transactions` loop. -/
def stepTxn (st : SummaryState) (t : Txn) : SummaryState :=
  let st :=
    if isBuy t then
      { st with total_buy := st.total_buy + t.tot_ccld_amt
                buy_count := st.buy_count + 1 }
    else
      { st with total_sell := st.total_sell + t.tot_ccld_amt
                sell_count := st.sell_count + 1 }
  let m :=
    if (st.by_stock.lookup t.pdno).isNone
    then st.by_stock ++ [(t.pdno, initAgg t.prdt_name)]
    else st.by_stock
  { st with by_stock := updAssoc t.pdno (bumpAgg t) m }

/-- A per-stock entry after the realized-profit pass. -/
structure StockAggFinal where
  agg : StockAgg
  realized_profit : ℚ
  profit_rate : ℚ

/-- The `realized_profit`/`profit_rate` pass over `by_stock`. -/
def finalizeAgg (a : StockAgg) : StockAggFinal :=
  if a.buy_amount > 0 then
    let profit := a.sell_amount - a.buy_amount
    ⟨a, profit, Py.pyround2 (profit / a.buy_amount * 100)⟩
  else ⟨a, a.sell_amount, 0⟩

/-- The dictionary returned by `get_transaction_summary`. -/
structure TxnSummary where
  period : String
  total_buy_amount : ℚ
  total_sell_amount : ℚ
  net_amount : ℚ
  total_trades : ℕ
  buy_trades : ℕ
  sell_trades : ℕ
  by_stock : List (String × StockAggFinal)

/-- `HantuStock.get_transaction_summary`, as a function of the cleaned
transaction list returned by `get_transaction_history`. -/
def getTransactionSummary (period : String) (transactions : List Txn) : TxnSummary :=
  let st := transactions.foldl stepTxn ⟨0, 0, 0, 0, []⟩
  { period := period
    total_buy_amount := st.total_buy
    total_sell_amount := st.total_sell
    net_amount := st.total_sell - st.total_buy
    total_trades := transactions.length
    buy_trades := st.buy_count
    sell_trades := st.sell_count
    by_stock := st.by_stock.map (fun kv => (kv.1, finalizeAgg kv.2)) }

end HantuStock

namespace AveragingCalculatorCopy

/-- Modelled from the spec: the second copy of the
`averaging_calculator` module — the spec states the class "appears twice
with only cosmetic differences", but the duplicate file itself is not
among the provided sources.  Faithful to the spec's words, this is the
same computation as `AveragingCalculator.calculate` with cosmetic
rearrangements (inlined temporaries, renamed locals, commuted sums). -/
def calculate (avg_price : ℚ) (quantity : ℤ) (current_price : ℚ) (add_quantity : ℤ) :
    AveragingCalculator.CalcResult :=
  let n := add_quantity + quantity
  let invested := current_price * (add_quantity : ℚ) + avg_price * (quantity : ℚ)
  let mean : ℚ := if n > 0 then invested / (n : ℚ) else 0
  { new_avg := Py.pytrunc mean
    change := Py.pytrunc (mean - avg_price)
    change_pct := Py.pyround2 (if avg_price > 0 then (mean - avg_price) / avg_price * 100 else 0)
    total_qty := n
    total_cost := Py.pytrunc invested
    breakeven_price := Py.pytrunc mean
    profit_if_sell_now := Py.pytrunc (current_price * (n : ℚ) - invested)
    profit_pct := Py.pyround2
      (if invested > 0 then (current_price * (n : ℚ) - invested) / invested * 100 else 0) }

end AveragingCalculatorCopy

namespace HantuStockCopy

/-- Modelled from the spec: the second copy of the `HantuStock` class
("appears twice with only cosmetic differences"; the duplicate file is
not among the provided sources).  `_tr` with the branch pushed inside. -/
def tr (isProd : Bool) (k : HantuStock.TrKey) : String :=
  if isProd then "TTTC" ++ HantuStock.trCode k else "VTTC" ++ HantuStock.trCode k

/-- Modelled from the spec: the duplicate `HantuStock.get_holding_cash`,
written with an option chain instead of the match. -/
def getHoldingCash (pyFloat : String → Option ℚ) (info : HantuStock.Payload) : ℚ :=
  ((info.lookup "prvs_rcdl_excc_amt").bind pyFloat).getD 0

/-- Modelled from the spec: the duplicate loop body of
`get_transaction_summary`, with the buy/sell branch test negated. -/
def stepTxn (st : HantuStock.SummaryState) (t : HantuStock.Txn) : HantuStock.SummaryState :=
  let st :=
    if ¬ HantuStock.isBuy t then
      { st with total_sell := st.total_sell + t.tot_ccld_amt
                sell_count := st.sell_count + 1 }
    else
      { st with total_buy := st.total_buy + t.tot_ccld_amt
                buy_count := st.buy_count + 1 }
  let m :=
    if (st.by_stock.lookup t.pdno).isNone
    then st.by_stock ++ [(t.pdno, HantuStock.initAgg t.prdt_name)]
    else st.by_stock
  { st with by_stock := HantuStock.updAssoc t.pdno (HantuStock.bumpAgg t) m }

/-- Modelled from the spec: the duplicate `get_transaction_summary`. -/
def getTransactionSummary (period : String) (transactions : List HantuStock.Txn) :
    HantuStock.TxnSummary :=
  let st := transactions.foldl stepTxn ⟨0, 0, 0, 0, []⟩
  { period := period
    total_buy_amount := st.total_buy
    total_sell_amount := st.total_sell
    net_amount := st.total_sell - st.total_buy
    total_trades := transactions.length
    buy_trades := st.buy_count
    sell_trades := st.sell_count
    by_stock := st.by_stock.map (fun kv => (kv.1, HantuStock.finalizeAgg kv.2)) }

end HantuStockCopy

namespace HantuStock

lemma requestLoop_never_raises (o : ℕ → ReqOutcome) :
    ∀ fuel i b, ∃ p, (requestLoop o fuel i b).result = .ok p := by
  intro fuel
  induction fuel with
  | zero => intro i b; exact ⟨([], failData), rfl⟩
  | succ n ih =>
    intro i b
    cases ho : o i with
    | exn =>
      obtain ⟨p, hp⟩ := ih (i + 1) (min (b * 2) 50)
      exact ⟨p, by simp [requestLoop, ho, hp]⟩
    | resp hd d =>
      by_cases ht : isThrottle d
      · obtain ⟨p, hp⟩ := ih (i + 1) (min (b * 2) 50)
        exact ⟨p, by simp [requestLoop, ho, ht, hp]⟩
      · exact ⟨(hd, d), by simp [requestLoop, ho, ht]⟩

lemma tokenLoop_all_fail (o : ℕ → TokenOutcome) :
    ∀ fuel i b, (∀ j, j < fuel → ∀ t, o (i + j) ≠ .token t) →
      tokenLoop o fuel i b
        = ⟨.error "Failed to get access token after retries", genSeq fuel b, fuel⟩ := by
  intro fuel
  induction fuel with
  | zero => intro i b _; rfl
  | succ n ih =>
    intro i b h
    have h0 := h 0 (Nat.succ_pos n)
    have hrec := ih (i + 1) (min (b * 2) 50) (by
      intro j hj t
      have := h (j + 1) (by omega) t
      simpa [Nat.add_assoc, Nat.add_comm 1 j] using this)
    cases ho : o i with
    | token t => exact absurd ho (by simpa using h0 t)
    | exn => simp [tokenLoop, ho, hrec, genSeq]
    | noToken => simp [tokenLoop, ho, hrec, genSeq]

lemma requestLoop_all_fail (o : ℕ → ReqOutcome) :
    ∀ fuel i b, (∀ j, j < fuel → retryable (o (i + j))) →
      requestLoop o fuel i b = ⟨.ok ([], failData), genSeq fuel b, fuel⟩ := by
  intro fuel
  induction fuel with
  | zero => intro i b _; rfl
  | succ n ih =>
    intro i b h
    have h0 := h 0 (Nat.succ_pos n)
    have hrec := ih (i + 1) (min (b * 2) 50) (by
      intro j hj
      have := h (j + 1) (by omega)
      simpa [Nat.add_assoc, Nat.add_comm 1 j] using this)
    cases ho : o i with
    | exn => simp [requestLoop, ho, hrec, genSeq]
    | resp hd d =>
      have ht : isThrottle d = true := by simpa [retryable, ho] using h0
      simp [requestLoop, ho, ht, hrec, genSeq]

lemma tokenLoop_sleeps_take (o : ℕ → TokenOutcome) :
    ∀ fuel i b, ∃ k, k ≤ fuel ∧ (tokenLoop o fuel i b).sleeps = (genSeq fuel b).take k
      ∧ (tokenLoop o fuel i b).attempts ≤ fuel := by
  intro fuel
  induction fuel with
  | zero => intro i b; exact ⟨0, le_rfl, rfl, le_rfl⟩
  | succ n ih =>
    intro i b
    cases ho : o i with
    | token t => exact ⟨0, Nat.zero_le _, by simp [tokenLoop, ho], by simp [tokenLoop, ho]⟩
    | exn =>
      obtain ⟨k, hk, hs, ha⟩ := ih (i + 1) (min (b * 2) 50)
      exact ⟨k + 1, by omega, by simp [tokenLoop, ho, hs, genSeq],
        by simp [tokenLoop, ho]; omega⟩
    | noToken =>
      obtain ⟨k, hk, hs, ha⟩ := ih (i + 1) (min (b * 2) 50)
      exact ⟨k + 1, by omega, by simp [tokenLoop, ho, hs, genSeq],
        by simp [tokenLoop, ho]; omega⟩

lemma requestLoop_sleeps_take (o : ℕ → ReqOutcome) :
    ∀ fuel i b, ∃ k, k ≤ fuel ∧ (requestLoop o fuel i b).sleeps = (genSeq fuel b).take k
      ∧ (requestLoop o fuel i b).attempts ≤ fuel := by
  intro fuel
  induction fuel with
  | zero => intro i b; exact ⟨0, le_rfl, rfl, le_rfl⟩
  | succ n ih =>
    intro i b
    cases ho : o i with
    | exn =>
      obtain ⟨k, hk, hs, ha⟩ := ih (i + 1) (min (b * 2) 50)
      exact ⟨k + 1, by omega, by simp [requestLoop, ho, hs, genSeq],
        by simp [requestLoop, ho]; omega⟩
    | resp hd d =>
      by_cases ht : isThrottle d
      · obtain ⟨k, hk, hs, ha⟩ := ih (i + 1) (min (b * 2) 50)
        exact ⟨k + 1, by omega, by simp [requestLoop, ho, ht, hs, genSeq],
          by simp [requestLoop, ho, ht]; omega⟩
      · exact ⟨0, Nat.zero_le _, by simp [requestLoop, ho, ht],
          by simp [requestLoop, ho, ht]⟩

end HantuStock

namespace HantuStock

/-- C1 counterexample: the claim says exhausting the retry budget never
raises, uniformly for `_get_access_token` and `_request`.  But when all
six token attempts return a body without `"access_token"`, the budget is
exhausted (6 attempts made) and `_get_access_token` raises
`RuntimeError("Failed to get access token after retries")` instead of
returning a failure payload. -/
theorem claim1_counterexample :
    (getAccessToken fun _ => TokenOutcome.noToken).attempts = 6 ∧
    (getAccessToken fun _ => TokenOutcome.noToken).result
      = Except.error "Failed to get access token after retries" :=
  ⟨rfl, rfl⟩

/-- C1 amended: only `_request` converts retry-budget exhaustion into a
generic failure payload (`{"rt_cd": "1", "msg1": "request failed after
retries"}`, never an exception); `_get_access_token` instead raises a
`RuntimeError` when all six attempts fail to produce an access token. -/
theorem claim1_amended (o : ℕ → ReqOutcome) (o' : ℕ → TokenOutcome)
    (h' : ∀ i, i < 6 → ∀ t, o' i ≠ .token t) :
    (∃ p, (request o).result = .ok p) ∧
    ((∀ i, i < 6 → retryable (o i)) → request o = ⟨.ok ([], failData), backoffSeq, 6⟩) ∧
    (getAccessToken o').result = Except.error "Failed to get access token after retries" := by
  refine ⟨requestLoop_never_raises o 6 0 5, fun h => ?_, ?_⟩
  · have := requestLoop_all_fail o 6 0 5 (by simpa using h)
    simpa [request, backoffSeq, genSeq] using this
  · have := tokenLoop_all_fail o' 6 0 5 (by simpa using h')
    simp [getAccessToken, this]

/-- Witness for `claim1_amended` at all-failing outcome streams. -/
theorem claim1_amended_witness :
    (∃ p, (request fun _ => ReqOutcome.exn).result = .ok p) ∧
    ((∀ i, i < 6 → retryable ((fun _ => ReqOutcome.exn) i)) →
      request (fun _ => ReqOutcome.exn) = ⟨.ok ([], failData), backoffSeq, 6⟩) ∧
    (getAccessToken fun _ => TokenOutcome.noToken).result
      = Except.error "Failed to get access token after retries" :=
  claim1_amended (fun _ => ReqOutcome.exn) (fun _ => TokenOutcome.noToken)
    (fun _ _ _ h => TokenOutcome.noConfusion h)

/-- C2: both retry loops make at most 6 attempts; the sleeps performed
form an initial segment of the schedule 0.5 s, 1 s, 2 s, 4 s, 5 s, 5 s
(doubling, capped at 5.0 s; recorded in tenths of a second), and when
every attempt fails the full schedule is slept in both routines. -/
theorem claim2_retry_schedule (o : ℕ → ReqOutcome) (o' : ℕ → TokenOutcome) :
    (getAccessToken o').attempts ≤ 6 ∧ (request o).attempts ≤ 6 ∧
    (∃ k, k ≤ 6 ∧ (getAccessToken o').sleeps = backoffSeq.take k) ∧
    (∃ k, k ≤ 6 ∧ (request o).sleeps = backoffSeq.take k) ∧
    ((∀ i, i < 6 → ∀ t, o' i ≠ .token t) → (getAccessToken o').sleeps = backoffSeq) ∧
    ((∀ i, i < 6 → retryable (o i)) → (request o).sleeps = backoffSeq) := by
  obtain ⟨k, hk, hs, ha⟩ := tokenLoop_sleeps_take o' 6 0 5
  obtain ⟨k', hk', hs', ha'⟩ := requestLoop_sleeps_take o 6 0 5
  have hseq : genSeq 6 5 = backoffSeq := rfl
  refine ⟨ha, ha', ⟨k, hk, by simpa [getAccessToken, hseq] using hs⟩,
    ⟨k', hk', by simpa [request, hseq] using hs'⟩, fun h => ?_, fun h => ?_⟩
  · have := tokenLoop_all_fail o' 6 0 5 (by simpa using h)
    simp [getAccessToken, this, hseq]
  · have := requestLoop_all_fail o 6 0 5 (by simpa using h)
    simp [request, this, hseq]

/-- Witness for `claim2_retry_schedule` at all-failing outcome streams:
the full delay sequence 0.5, 1, 2, 4, 5, 5 seconds is slept. -/
theorem claim2_retry_schedule_witness :
    (getAccessToken fun _ => TokenOutcome.noToken).sleeps = backoffSeq ∧
    (request fun _ => ReqOutcome.exn).sleeps = backoffSeq ∧
    (getAccessToken fun _ => TokenOutcome.noToken).attempts ≤ 6 ∧
    (request fun _ => ReqOutcome.exn).attempts ≤ 6 := by
  have h := claim2_retry_schedule (fun _ => ReqOutcome.exn) (fun _ => TokenOutcome.noToken)
  exact ⟨h.2.2.2.2.1 (fun _ _ t hc => TokenOutcome.noConfusion hc),
    h.2.2.2.2.2 (fun _ _ => trivial), h.1, h.2.1⟩

/-- C5: when the first attempt of `_request` yields a response, a
non-`"0"` `rt_cd` triggers a backoff-and-retry only when `msg_cd` is one
of the throttling codes `"EGW00201"`/`"EGW00123"` (the loop then sleeps
0.5 s and continues with doubled backoff); any other response — an
`rt_cd = "0"` success or a non-throttling error — is returned to the
caller immediately, after exactly one attempt and no sleep. -/
theorem claim5_throttle_detection (o : ℕ → ReqOutcome) (hd : Headers) (d : KisData)
    (h0 : o 0 = .resp hd d) :
    (d.rt_cd = some "0" → request o = ⟨.ok (hd, d), [], 1⟩) ∧
    (d.rt_cd ≠ some "0" →
      ¬(d.msg_cd = some "EGW00201" ∨ d.msg_cd = some "EGW00123") →
      request o = ⟨.ok (hd, d), [], 1⟩) ∧
    (d.rt_cd ≠ some "0" →
      (d.msg_cd = some "EGW00201" ∨ d.msg_cd = some "EGW00123") →
      request o = ⟨(requestLoop o 5 1 10).result, 5 :: (requestLoop o 5 1 10).sleeps,
        (requestLoop o 5 1 10).attempts + 1⟩) := by
  refine ⟨fun h => ?_, fun h hm => ?_, fun h hm => ?_⟩
  · have ht : isThrottle d = false := by simp [isThrottle, h]
    simp [request, requestLoop, h0, ht]
  · have ht : isThrottle d = false := by simp [isThrottle, h, hm]
    simp [request, requestLoop, h0, ht]
  · have ht : isThrottle d = true := by simp [isThrottle, h, hm]
    simp [request, requestLoop, h0, ht]

/-- Witness for `claim5_throttle_detection`: a non-`"0"`, non-throttling
error response is handed back to the caller at once. -/
theorem claim5_throttle_detection_witness :
    request (fun _ => ReqOutcome.resp [("tr_cont", "")]
        ⟨some "1", some "APBK0013", some "주문가능금액을 초과했습니다", 7⟩)
      = ⟨.ok ([("tr_cont", "")], ⟨some "1", some "APBK0013", some "주문가능금액을 초과했습니다", 7⟩),
          [], 1⟩ := by
  have h := claim5_throttle_detection
    (fun _ => ReqOutcome.resp [("tr_cont", "")]
      ⟨some "1", some "APBK0013", some "주문가능금액을 초과했습니다", 7⟩)
    [("tr_cont", "")] ⟨some "1", some "APBK0013", some "주문가능금액을 초과했습니다", 7⟩ rfl
  exact h.2.1 (by decide) (by decide)

end HantuStock

namespace HantuStock

lemma balanceLoop_spec {α : Type} :
    ∀ (ps : List (Page α)) (fk nk : String),
      (balanceLoop ps fk nk).out = ((visitedPages ps).map Page.output1).flatten ∧
      (balanceLoop ps fk nk).reqs
        = (fk, nk) :: ((contPages ps).map fun p => (p.fk100, p.nk100)) := by
  intro ps
  induction ps with
  | nil => intro fk nk; exact ⟨rfl, rfl⟩
  | cons p ps ih =>
    intro fk nk
    by_cases hc : contFlag p
    · obtain ⟨h1, h2⟩ := ih p.fk100 p.nk100
      constructor
      · simp [balanceLoop, visitedPages, hc, h1]
      · simp [balanceLoop, contPages, hc, h2]
    · constructor
      · simp [balanceLoop, visitedPages, hc]
      · simp [balanceLoop, contPages, hc]

/-- C4: `_inquire_balance_raw` (with `account_info=False`) keeps issuing
requests exactly as long as `tr_cont` is `"F"` or `"M"`; the first
request carries empty continuation parameters and every later request
carries the previous response's `ctx_area_fk100`/`ctx_area_nk100`; the
returned list is the concatenation, in request order, of the `output1`
lists of the pages consumed. -/
theorem claim4_balance_pagination {α : Type} (pages : List (Page α)) :
    (inquireBalanceRaw pages).out = ((visitedPages pages).map Page.output1).flatten ∧
    (inquireBalanceRaw pages).reqs
      = ("", "") :: ((contPages pages).map fun p => (p.fk100, p.nk100)) ∧
    (inquireBalanceRaw pages).reqs.length = (contPages pages).length + 1 := by
  obtain ⟨h1, h2⟩ := balanceLoop_spec pages "" ""
  exact ⟨h1, h2, by simp [inquireBalanceRaw] at h2 ⊢; simp [h2]⟩

end HantuStock

namespace StockAnalyzer

lemma sortStrings_length : ∀ l : List String, (sortStrings l).length = l.length := by
  have hins : ∀ (s : String) (l : List String),
      (insertSorted s l).length = l.length + 1 := by
    intro s l
    induction l with
    | nil => rfl
    | cons t ts ih =>
      by_cases h : s ≤ t
      · simp [insertSorted, h]
      · simp [insertSorted, h, ih]
  intro l
  induction l with
  | nil => rfl
  | cons s ss ih => simp [sortStrings, hins, ih]

/-- C6: `load_cash_balance` represents its failure case as a dictionary
with an `"error"` key: whenever no file in the data directory matches
`cash_*.csv` the returned dictionary has the `"error"` key; when some
file matches, a latest file exists, and (when reading it succeeds, the
only case in which a dictionary is returned) the result has the
`"asof"`, `"cash"` and `"file"` keys and no `"error"` key. -/
theorem claim6_cash_error_dict (dir : List String) (read : String → Option CashRow) :
    (dir.filter matchesCashPattern = [] →
      ∃ d, loadCashBalance dir read = .ok d ∧ d.lookup "error" ≠ none) ∧
    (dir.filter matchesCashPattern ≠ [] →
      ∃ f, getLatestFile matchesCashPattern dir = some f) ∧
    (∀ f row, getLatestFile matchesCashPattern dir = some f → read f = some row →
      ∃ d, loadCashBalance dir read = .ok d ∧
        d.lookup "asof" ≠ none ∧ d.lookup "cash" ≠ none ∧ d.lookup "file" ≠ none ∧
        d.lookup "error" = none) := by
  refine ⟨fun h => ?_, fun h => ?_, fun f row hf hr => ?_⟩
  · have hnone : getLatestFile matchesCashPattern dir = none := by
      simp [getLatestFile, h, sortStrings]
    refine ⟨[("error", .s "현금 잔고 파일을 찾을 수 없습니다")], ?_, ?_⟩
    · simp [loadCashBalance, hnone]
    · simp
  · rcases hs : (sortStrings (dir.filter matchesCashPattern)).getLast? with _ | f
    · exfalso
      have : sortStrings (dir.filter matchesCashPattern) = [] :=
        List.getLast?_eq_none_iff.mp hs
      have := congrArg List.length this
      rw [sortStrings_length] at this
      exact h (List.length_eq_zero.mp this)
    · exact ⟨f, hs⟩
  · refine ⟨[("asof", .s row.asof), ("cash", .q row.cash), ("file", .s f)],
      ?_, ?_, ?_, ?_, ?_⟩
    · simp [loadCashBalance, hf, hr]
    · simp [List.lookup]
    · simp [List.lookup]
    · simp [List.lookup]
    · simp [List.lookup]

/-- Witness for `claim6_cash_error_dict`: a directory with no matching
file, and one with a single `cash_*.csv` file that reads successfully. -/
theorem claim6_cash_error_dict_witness :
    (∃ d, loadCashBalance ["holdings_20240101.csv"] (fun _ => none) = .ok d ∧
      d.lookup "error" ≠ none) ∧
    (∃ d, loadCashBalance ["cash_20240101.csv"]
        (fun f => if f = "cash_20240101.csv" then some ⟨"2024-01-01", 1000⟩ else none) = .ok d ∧
      d.lookup "asof" ≠ none ∧ d.lookup "cash" ≠ none ∧ d.lookup "file" ≠ none ∧
      d.lookup "error" = none) := by
  constructor
  · exact (claim6_cash_error_dict ["holdings_20240101.csv"] (fun _ => none)).1 (by decide)
  · exact (claim6_cash_error_dict ["cash_20240101.csv"]
      (fun f => if f = "cash_20240101.csv" then some ⟨"2024-01-01", 1000⟩ else none)).2.2
      "cash_20240101.csv" ⟨"2024-01-01", 1000⟩ (by decide) (by simp)

end StockAnalyzer

namespace HantuStock

/-- C7: `get_holding_cash` degrades to zero cash: if the
`prvs_rcdl_excc_amt` field is absent the result is `0.0`; if it is
present but `float(...)` raises, the exception is swallowed and the
result is `0.0`; otherwise the result is the parsed float. -/
theorem claim7_holding_cash_default (pyFloat : String → Option ℚ) (info : Payload) :
    (info.lookup "prvs_rcdl_excc_amt" = none → getHoldingCash pyFloat info = 0) ∧
    (∀ s, info.lookup "prvs_rcdl_excc_amt" = some s → pyFloat s = none →
      getHoldingCash pyFloat info = 0) ∧
    (∀ s q, info.lookup "prvs_rcdl_excc_amt" = some s → pyFloat s = some q →
      getHoldingCash pyFloat info = q) := by
  refine ⟨fun h => ?_, fun s hs hp => ?_, fun s q hs hp => ?_⟩
  · simp [getHoldingCash, h]
  · simp [getHoldingCash, hs, hp]
  · simp [getHoldingCash, hs, hp]

/-- Witness for `claim7_holding_cash_default`: an empty payload, an
unparseable field, and a parseable field. -/
theorem claim7_holding_cash_default_witness :
    getHoldingCash (fun _ => none) [] = 0 ∧
    getHoldingCash (fun _ => none) [("prvs_rcdl_excc_amt", "abc")] = 0 ∧
    getHoldingCash (fun s => if s = "12345" then some 12345 else none)
      [("prvs_rcdl_excc_amt", "12345")] = 12345 := by
  refine ⟨(claim7_holding_cash_default (fun _ => none) []).1 rfl,
    (claim7_holding_cash_default (fun _ => none) [("prvs_rcdl_excc_amt", "abc")]).2.1
      "abc" rfl rfl,
    (claim7_holding_cash_default (fun s => if s = "12345" then some 12345 else none)
      [("prvs_rcdl_excc_amt", "12345")]).2.2 "12345" 12345 rfl (by simp)⟩

end HantuStock

/-- C3 counterexample: the claim says every Kakao response carries the
envelope `version` / `template.outputs` / `quickReplies`, and in
particular that `KakaoReportFormatter._create_kakao_response` contains
all three.  Evaluated at a concrete summary, that response has a
`version` and a `template` with `outputs`, but no `quickReplies` key —
neither at the top level nor inside `template`. -/
theorem claim3_counterexample :
    jLookup "version"
        (KakaoReportFormatter.kakaoResponse KakaoReportFormatter.sampleSummary
          "https://example.com/report/005930") = some (.s "2.0") ∧
    (jLookup "template"
        (KakaoReportFormatter.kakaoResponse KakaoReportFormatter.sampleSummary
          "https://example.com/report/005930")).isSome = true ∧
    jLookup "quickReplies"
        (KakaoReportFormatter.kakaoResponse KakaoReportFormatter.sampleSummary
          "https://example.com/report/005930") = none ∧
    (jLookup "template"
        (KakaoReportFormatter.kakaoResponse KakaoReportFormatter.sampleSummary
          "https://example.com/report/005930")).bind (jLookup "quickReplies") = none := by
  exact ⟨rfl, rfl, rfl, rfl⟩

/-- C3 amended: every Kakao response built by these formatters carries
`version = "2.0"` and a `template` object with an `outputs` list, but
`quickReplies` is not part of a fixed top-level envelope:
`KakaoReportFormatter._create_kakao_response` emits no `quickReplies` at
all, and the news formatter that does emit one nests it inside
`template` (its error branch also omits it). -/
theorem claim3_amended (s : KakaoReportFormatter.Summary) (url : String)
    (meta : NewsSummary.NewsMeta) (ki : Option String) (err : String) :
    (jLookup "version" (KakaoReportFormatter.kakaoResponse s url) = some (.s "2.0") ∧
      (∃ t, jLookup "template" (KakaoReportFormatter.kakaoResponse s url) = some (.obj t) ∧
        (∃ os, t.lookup "outputs" = some (.arr os) ∧ os.length = 2) ∧
        t.lookup "quickReplies" = none) ∧
      jLookup "quickReplies" (KakaoReportFormatter.kakaoResponse s url) = none) ∧
    (jLookup "version" (NewsSummary.formatForKakao meta ki) = some (.s "2.0") ∧
      (∃ t, jLookup "template" (NewsSummary.formatForKakao meta ki) = some (.obj t) ∧
        (t.lookup "outputs").isSome = true ∧ (t.lookup "quickReplies").isSome = true) ∧
      jLookup "quickReplies" (NewsSummary.formatForKakao meta ki) = none) ∧
    (jLookup "version" (NewsSummary.formatForKakaoError err) = some (.s "2.0") ∧
      (∃ t, jLookup "template" (NewsSummary.formatForKakaoError err) = some (.obj t) ∧
        (t.lookup "outputs").isSome = true ∧ t.lookup "quickReplies" = none)) :=
  ⟨⟨rfl, ⟨_, rfl, ⟨_, rfl, rfl⟩, rfl⟩, rfl⟩,
   ⟨rfl, ⟨_, rfl, rfl, rfl⟩, rfl⟩,
   ⟨rfl, ⟨_, rfl, rfl, rfl⟩⟩⟩

/-- C9: averaging down never raises the average — with non-negative
quantities, a positive total, a non-negative average price and a current
price at most the average, the returned `new_avg` (a truncated int) is
at most `avg_price`; and the returned `total_qty` always equals
`quantity + add_quantity`. -/
theorem claim9_averaging_monotone (a c : ℚ) (q aq : ℤ)
    (hq : 0 ≤ q) (haq : 0 ≤ aq) (hpos : 0 < q + aq) (ha : 0 ≤ a) (hc : c ≤ a) :
    ((AveragingCalculator.calculate a q c aq).new_avg : ℚ) ≤ a ∧
    ∀ (a' c' : ℚ) (q' aq' : ℤ),
      (AveragingCalculator.calculate a' q' c' aq').total_qty = q' + aq' := by
  constructor
  · have hν : (AveragingCalculator.calculate a q c aq).new_avg
        = Py.pytrunc ((a * (q : ℚ) + c * (aq : ℚ)) / ((q : ℚ) + (aq : ℚ))) := by
      simp [AveragingCalculator.calculate, hpos]
    rw [hν]
    have hden : (0 : ℚ) < (q : ℚ) + (aq : ℚ) := by
      have : ((0 : ℤ) : ℚ) < ((q + aq : ℤ) : ℚ) := by exact_mod_cast hpos
      push_cast at this
      linarith
    have hνa : (a * (q : ℚ) + c * (aq : ℚ)) / ((q : ℚ) + (aq : ℚ)) ≤ a := by
      rw [div_le_iff₀ hden]
      have h1 : c * (aq : ℚ) ≤ a * (aq : ℚ) :=
        mul_le_mul_of_nonneg_right hc (by exact_mod_cast haq)
      nlinarith
    set ν : ℚ := (a * (q : ℚ) + c * (aq : ℚ)) / ((q : ℚ) + (aq : ℚ))
    by_cases h0 : 0 ≤ ν
    · have hfl : ((⌊ν⌋ : ℤ) : ℚ) ≤ ν := Int.floor_le ν
      simp only [Py.pytrunc, if_pos h0]
      linarith
    · push_neg at h0
      have hcl : (⌈ν⌉ : ℤ) ≤ 0 := Int.ceil_le.mpr (by exact_mod_cast h0.le)
      simp only [Py.pytrunc, if_neg (not_le.mpr h0)]
      calc ((⌈ν⌉ : ℤ) : ℚ) ≤ 0 := by exact_mod_cast hcl
        _ ≤ a := ha
  · intro a' c' q' aq'
    simp [AveragingCalculator.calculate]

/-- Witness for `claim9_averaging_monotone` at average price 1,
current price 0, 10 shares held and 10 added. -/
theorem claim9_averaging_monotone_witness :
    ((AveragingCalculator.calculate 1 10 0 10).new_avg : ℚ) ≤ 1 ∧
    ∀ (a' c' : ℚ) (q' aq' : ℤ),
      (AveragingCalculator.calculate a' q' c' aq').total_qty = q' + aq' :=
  claim9_averaging_monotone 1 0 10 10 (by decide) (by decide) (by decide)
    zero_le_one zero_le_one

namespace HantuStock

lemma stepTxn_effects (st : SummaryState) (t : Txn) :
    (stepTxn st t).buy_count = st.buy_count + (if isBuy t then 1 else 0) ∧
    (stepTxn st t).sell_count = st.sell_count + (if isBuy t then 0 else 1) := by
  by_cases h : isBuy t <;> simp [stepTxn, h]

lemma filter_isBuy_length (ts : List Txn) :
    (ts.filter isBuy).length + (ts.filter (fun t => ! isBuy t)).length = ts.length := by
  induction ts with
  | nil => simp
  | cons t ts ih => by_cases h : isBuy t <;> simp [List.filter_cons, h] <;> omega

lemma foldl_counts (ts : List Txn) : ∀ st : SummaryState,
    (ts.foldl stepTxn st).buy_count = st.buy_count + (ts.filter isBuy).length ∧
    (ts.foldl stepTxn st).sell_count
      = st.sell_count + (ts.filter (fun t => ! isBuy t)).length := by
  induction ts with
  | nil => intro st; simp
  | cons t ts ih =>
    intro st
    obtain ⟨h1, h2⟩ := ih (stepTxn st t)
    obtain ⟨hb, hs⟩ := stepTxn_effects st t
    constructor
    · rw [List.foldl_cons, h1, hb, List.filter_cons]
      by_cases h : isBuy t <;> simp [h] <;> omega
    · rw [List.foldl_cons, h2, hs, List.filter_cons]
      by_cases h : isBuy t <;> simp [h] <;> omega

/-- C10: the dictionary returned by `get_transaction_summary` satisfies
the bookkeeping invariant: `total_trades` is the number of transactions
and equals `buy_trades + sell_trades`; `buy_trades` counts exactly the
transactions whose `sll_buy_dvsn_cd` is `"02"` and `sell_trades` the
rest; and `net_amount = total_sell_amount - total_buy_amount`. -/
theorem claim10_summary_invariant (period : String) (ts : List Txn) :
    (getTransactionSummary period ts).total_trades
      = (getTransactionSummary period ts).buy_trades
        + (getTransactionSummary period ts).sell_trades ∧
    (getTransactionSummary period ts).total_trades = ts.length ∧
    (getTransactionSummary period ts).buy_trades = (ts.filter isBuy).length ∧
    (getTransactionSummary period ts).sell_trades
      = (ts.filter (fun t => ! isBuy t)).length ∧
    (getTransactionSummary period ts).net_amount
      = (getTransactionSummary period ts).total_sell_amount
        - (getTransactionSummary period ts).total_buy_amount := by
  obtain ⟨h1, h2⟩ := foldl_counts ts ⟨0, 0, 0, 0, []⟩
  have hlen := filter_isBuy_length ts
  refine ⟨?_, by simp [getTransactionSummary], by simp [getTransactionSummary, h1],
    by simp [getTransactionSummary, h2], by simp [getTransactionSummary]⟩
  simp [getTransactionSummary, h1, h2]
  omega

end HantuStock

/-- C8: the two copies of each duplicated class are behaviorally
equivalent.  The second copies of `HantuStock` and
`averaging_calculator` are not among the provided sources, so they are
modelled from the spec ("appear twice with only cosmetic differences")
as cosmetic rearrangements, and each pair of corresponding methods is
proved to return the same result on every input. -/
theorem claim8_duplicates_equivalent :
    (∀ (a c : ℚ) (q aq : ℤ),
      AveragingCalculatorCopy.calculate a q c aq = AveragingCalculator.calculate a q c aq) ∧
    (∀ (b : Bool) (k : HantuStock.TrKey), HantuStockCopy.tr b k = HantuStock.tr b k) ∧
    (∀ (pf : String → Option ℚ) (info : HantuStock.Payload),
      HantuStockCopy.getHoldingCash pf info = HantuStock.getHoldingCash pf info) ∧
    (∀ (p : String) (ts : List HantuStock.Txn),
      HantuStockCopy.getTransactionSummary p ts = HantuStock.getTransactionSummary p ts) := by
  refine ⟨?_, ?_, ?_, ?_⟩
  · intro a c q aq
    unfold AveragingCalculatorCopy.calculate AveragingCalculator.calculate
    rw [add_comm aq q, add_comm (c * (aq : ℚ)) (a * (q : ℚ))]
  · intro b k
    cases b <;> rfl
  · intro pf info
    cases h : info.lookup "prvs_rcdl_excc_amt" <;>
      simp [HantuStockCopy.getHoldingCash, HantuStock.getHoldingCash, h]
  · intro p ts
    have hstep : HantuStockCopy.stepTxn = HantuStock.stepTxn := by
      funext st t
      unfold HantuStockCopy.stepTxn HantuStock.stepTxn
      cases h : HantuStock.isBuy t
      · simp
      · simp
    unfold HantuStockCopy.getTransactionSummary HantuStock.getTransactionSummary
    rw [hstep]
